import Mathlib

/-
Verification of the DisasterConnect Peer Mesh Messaging Core.

Shallow embedding of the repository's Python sources:
  src/pythonEngine/message_router.py   (acknowledgment registry)
  src/pythonEngine/store_forward.py    (persistent store-and-forward buffer)
  src/pythonEngine/peer_client.py      (outbound send with buffering on failure)
  src/p2p/host.py                      (peer directory, point-to-point send, broadcast)
  src/p2p/chatroom.py                  (room log, publish, inbound handler)
  src/p2p/discovery.py + src/main.py   (UDP discovery listener wired to connect_to_peer)

Python dicts are modelled as insertion-ordered association lists; network
send outcomes are supplied as Boolean oracles; the on-disk buffer file is
an explicit `disk` component of the store-and-forward state.
-/

set_option autoImplicit false

namespace DisasterConnect

/-! ## Insertion-ordered dictionary (model of a Python `dict`) -/

/-- A Python `dict` with keys of type `α` and values of type `β`,
modelled as an insertion-ordered association list with unique keys
(operations below preserve key uniqueness the way `dict` does). -/
abbrev Dict (α β : Type) := List (α × β)

/-- Model of `d[k]` / `d.get(k)`: the value stored at the first
(and only) occurrence of key `k`, if any. -/
def dictGet {α β : Type} [DecidableEq α] (d : Dict α β) (k : α) : Option β :=
  match d with
  | [] => none
  | (k', v) :: rest => if k' = k then some v else dictGet rest k

/-- Model of `d[k] = v`: replace the value at `k` in place if present,
otherwise append the new binding at the end (Python insertion order). -/
def dictSet {α β : Type} [DecidableEq α] (d : Dict α β) (k : α) (v : β) : Dict α β :=
  match d with
  | [] => [(k, v)]
  | (k', v') :: rest => if k' = k then (k', v) :: rest else (k', v') :: dictSet rest k v

/-- Model of `d.pop(k, None)`: remove the binding at `k` if present. -/
def dictPop {α β : Type} [DecidableEq α] (d : Dict α β) (k : α) : Dict α β :=
  match d with
  | [] => []
  | (k', v') :: rest => if k' = k then rest else (k', v') :: dictPop rest k

/-- Model of `k in d`. -/
def dictContains {α β : Type} [DecidableEq α] (d : Dict α β) (k : α) : Bool :=
  (dictGet d k).isSome

/-! ## Acknowledgment registry — src/pythonEngine/message_router.py

`pending_acks` maps a message id to the set of target peers that were
registered for it (`register_ack`).  `handle_ack` is the code's handler
for an inbound ACK; `wait_for_acks` polls up to `SOS_RETRY_COUNT` times,
returning `true` as soon as the id is absent from `pending_acks`. -/

/-- The `pending_acks` global: message id ↦ registered target peers.
(The Python code stores a `set(peers)`; it is modelled as the list of
distinct peers in registration order.) -/
abbrev PendingAcks := Dict String (List String)

/-- Model of `register_ack(msg_id, peers)`: `pending_acks[msg_id] = set(peers)`. -/
def register_ack (pa : PendingAcks) (msg_id : String) (peers : List String) : PendingAcks :=
  dictSet pa msg_id peers

/-- Model of `handle_ack(msg_id)`: `pending_acks.pop(msg_id, None)`.
Note the source takes no acknowledging-peer argument at all: the whole
entry is discarded on the first ACK for the id. -/
def handle_ack (pa : PendingAcks) (msg_id : String) : PendingAcks :=
  dictPop pa msg_id

/-- Model of `wait_for_acks(msg_id)` with retry budget `n`
(`SOS_RETRY_COUNT` in the missing config module), evaluated against a
registry state `pa` that does not change during the wait: each poll
checks `msg_id not in pending_acks`. -/
def wait_for_acks (pa : PendingAcks) (msg_id : String) : Nat → Bool
  | 0 => false
  | n + 1 => if dictContains pa msg_id then wait_for_acks pa msg_id n else true

/-! ## Store-and-forward buffer — src/pythonEngine/store_forward.py -/

/-- State of the store-and-forward subsystem: the in-memory `buffer`
global (address ↦ queued messages) and the contents of the
`message_buffer.json` file on disk (`none` when the file does not exist).
The message type `μ` is abstract: the buffer stores whatever message
dictionaries the caller hands it. -/
structure SFState (μ : Type) where
  buffer : Dict String (List μ)
  disk : Option (Dict String (List μ))
deriving DecidableEq

/-- Model of `save_buffer()`: serialize the in-memory buffer to the file. -/
def save_buffer {μ : Type} (s : SFState μ) : SFState μ :=
  { s with disk := some s.buffer }

/-- Model of `load_buffer()`: if the file exists, replace the in-memory
buffer with its contents; otherwise leave the buffer as it is. -/
def load_buffer {μ : Type} (s : SFState μ) : SFState μ :=
  match s.disk with
  | some d => { s with buffer := d }
  | none => s

/-- Model of `buffer.setdefault(ip, []).append(message)`. -/
def setdefaultAppend {μ : Type} (d : Dict String (List μ)) (ip : String) (m : μ) :
    Dict String (List μ) :=
  match dictGet d ip with
  | some q => dictSet d ip (q ++ [m])
  | none => d ++ [(ip, [m])]

/-- Model of `buffer_message(ip, message)`: append under the address's
queue and persist synchronously (`save_buffer()` inside the lock). -/
def buffer_message {μ : Type} (s : SFState μ) (ip : String) (m : μ) : SFState μ :=
  save_buffer { s with buffer := setdefaultAppend s.buffer ip m }

/-- Model of `flush_buffer(ip, port, send_func)`: iterate the queued
messages for `ip` in order, keep exactly those whose `send_func` attempt
fails, store the remainder back under `ip`, and persist.  `send_func` is
the outbound-send oracle. -/
def flush_buffer {μ : Type} (s : SFState μ) (ip : String) (port : Nat)
    (send_func : String → Nat → μ → Bool) : SFState μ :=
  let msgs := (dictGet s.buffer ip).getD []
  let remaining := msgs.filter (fun m => !(send_func ip port m))
  save_buffer { s with buffer := dictSet s.buffer ip remaining }

/-- The redelivery attempts a `flush_buffer(ip, ...)` call makes, in
order: exactly the queue buffered for `ip`, oldest first. -/
def flush_attempts {μ : Type} (s : SFState μ) (ip : String) : List μ :=
  (dictGet s.buffer ip).getD []

/-! ## Outbound send — src/pythonEngine/peer_client.py

`send_message(ip, port, msg)` tries a TCP send; on any exception it
buffers the message via `buffer_message` and returns `False`.  The
network outcome is the oracle argument `ok`.  It never touches any peer
directory. -/

/-- Model of `send_message`: on success the store-and-forward state is
untouched and `true` is returned; on failure the message is buffered
(and thereby persisted) and `false` is returned. -/
def send_message {μ : Type} (s : SFState μ) (ip : String) (_port : Nat) (m : μ)
    (ok : Bool) : SFState μ × Bool :=
  if ok then (s, true) else (buffer_message s ip m, false)

/-! ## P2P host — src/p2p/host.py

The peer directory `self.peers` maps peer id ↦ `(ip, port)`.  Ports are
`Option Nat` because a port value arrives from a decoded JSON datagram
and may be absent (`None`).  Network outcomes are Boolean oracles. -/

/-- Address of a peer as stored in the directory: `(ip, port)`. -/
abbrev Addr := String × Option Nat

/-- The mutable state of a `P2PHost` relevant to the directory claims:
its own peer id and the peer directory `self.peers`. -/
structure HostState where
  peer_id : String
  peers : Dict String Addr
deriving DecidableEq

/-- Model of `P2PHost._send_to_peer(peer_id, message)`: look up the
peer's current address and attempt one connect/send (outcome given by
the oracle `sendOk` on the address).  On any exception — including a
missing directory entry — the `except` block runs
`self.peers.pop(peer_id, None)`. -/
def sendToPeer (h : HostState) (peer_id : String) (sendOk : Addr → Bool) : HostState :=
  match dictGet h.peers peer_id with
  | none => { h with peers := dictPop h.peers peer_id }
  | some addr =>
    if sendOk addr then h else { h with peers := dictPop h.peers peer_id }

/-- Model of `P2PHost.connect_to_peer(peer_ip, peer_port, peer_id)`:
insert the peer into the directory, then send a handshake via
`_send_to_peer` (which never raises), and return `True`. -/
def connect_to_peer (h : HostState) (peer_ip : String) (peer_port : Option Nat)
    (peer_id : String) (sendOk : Addr → Bool) : HostState × Bool :=
  let h1 : HostState := { h with peers := dictSet h.peers peer_id (peer_ip, peer_port) }
  (sendToPeer h1 peer_id sendOk, true)

/-! ### Message dictionaries

The JSON message dictionaries that flow through `broadcast_message` and
the chat-room handler, with the fields those functions read or write;
`none` models an absent key (`dict.get` returning `None`). -/

/-- Application view of a CHAT payload — `ChatMessage` in
src/p2p/chatroom.py (field names as in the source). -/
structure ChatMessage where
  Message : String
  SenderID : String
  SenderNick : String
  Timestamp : String
deriving DecidableEq

/-- A decoded wire message dictionary: the keys read by
`ChatRoom._handle_incoming_message` (`type`, `room`, `data`) and the key
written by `P2PHost.broadcast_message` (`peer_id`). -/
structure PyMsg where
  type : Option String
  room : Option String
  data : Option ChatMessage
  peer_id : Option String
deriving DecidableEq

/-- Model of `P2PHost.broadcast_message(message)`.  It first mutates the
caller's dictionary, `message['peer_id'] = self.peer_id`, encodes it
once, then iterates a snapshot of the directory attempting one send per
peer (outcome per peer given by the oracle `sendOk`), counting
successes.  Returned: the host state (the loop never mutates the
directory — the eviction there is commented out in the source), the
caller's mutated dictionary, the success count, and the wire trace of
(peer id, encoded payload) pairs attempted. -/
def broadcast_message (h : HostState) (message : PyMsg) (sendOk : String → Addr → Bool) :
    HostState × PyMsg × Nat × List (String × PyMsg) :=
  let m2 : PyMsg := { message with peer_id := some h.peer_id }
  let peers_copy := h.peers
  let successful_sends :=
    peers_copy.foldl (fun acc p => if sendOk p.1 p.2 then acc + 1 else acc) 0
  (h, m2, successful_sends, peers_copy.map (fun p => (p.1, m2)))

/-! ## Chat room — src/p2p/chatroom.py -/

/-- The mutable state of a `ChatRoom`: its configuration and the ordered
message log `self.messages`. -/
structure RoomState where
  room_name : String
  nickname : String
  peer_id : String
  messages : List ChatMessage
deriving DecidableEq

/-- The duplicate test used by `_handle_incoming_message`: same
`SenderID`, `Message` and `Timestamp` (nickname is not compared). -/
def sameTuple (d x : ChatMessage) : Bool :=
  decide (x.SenderID = d.SenderID ∧ x.Message = d.Message ∧ x.Timestamp = d.Timestamp)

/-- Number of log entries matching a message's dedup tuple. -/
def countTuple (log : List ChatMessage) (d : ChatMessage) : Nat :=
  (log.filter (sameTuple d)).length

/-- Model of `ChatRoom._handle_incoming_message(message_data)`: drop
non-`chat_message` types, drop other rooms, drop a missing `data` field
(`ChatMessage(**{})` raises and the `except` swallows it), drop our own
echoes, then append unless the `(SenderID, Message, Timestamp)` tuple is
already present. -/
def handleIncoming (r : RoomState) (m : PyMsg) : RoomState :=
  if m.type ≠ some "chat_message" then r
  else if m.room ≠ some r.room_name then r
  else
    match m.data with
    | none => r
    | some d =>
      if d.SenderID = r.peer_id then r
      else
        let is_duplicate := r.messages.any (sameTuple d)
        if is_duplicate then r else { r with messages := r.messages ++ [d] }

/-- Model of `ChatRoom.publish(message)`: build the `ChatMessage` (the
timestamp the constructor generates is the `ts` argument), append it to
the local log, wrap it as a `chat_message` dictionary tagged with the
room name, broadcast it, and return `True` iff the success count is
positive.  Returned: the host state after the broadcast, the room state,
and the Boolean result. -/
def publish (h : HostState) (r : RoomState) (text ts : String)
    (sendOk : String → Addr → Bool) : HostState × RoomState × Bool :=
  let chat_msg : ChatMessage :=
    { Message := text, SenderID := r.peer_id, SenderNick := r.nickname, Timestamp := ts }
  let r1 : RoomState := { r with messages := r.messages ++ [chat_msg] }
  let broadcast_data : PyMsg :=
    { type := some "chat_message", room := some r.room_name,
      data := some chat_msg, peer_id := none }
  let res := broadcast_message h broadcast_data sendOk
  (res.1, r1, decide (0 < res.2.2.1))

/-! ## Discovery — src/p2p/discovery.py listener wired to src/main.py

`PeerDiscovery._listen_for_peers` decodes a datagram, discards its own
announcements and other rendezvous tags, and on an unseen truthy
`peer_id` records it in `discovered_peers` and invokes `on_peer_found`.
In src/main.py the callback is `on_peer_discovered`, which calls
`P2PHost.connect_to_peer` — inserting the peer into the directory and
sending a handshake. -/

/-- A decoded discovery datagram (`message.get(...)` fields). -/
structure Datagram where
  peer_id : Option String
  p2p_port : Option Nat
  rendezvous : Option String
deriving DecidableEq

/-- Immutable discovery configuration: this node's peer id and the
locally configured rendezvous tag. -/
structure DiscConfig where
  self_id : String
  rendezvous : String
deriving DecidableEq

/-- Combined state of the discovery listener and the host it feeds:
the `discovered_peers` set (as a list without duplicates), the host
(whose directory the callback mutates), and the ghost trace of
`on_peer_found(peer_id, ip, port)` invocations. -/
structure DiscState where
  discovered : List String
  host : HostState
  callbackTrace : List (String × String × Option Nat)
deriving DecidableEq

/-- Truthiness of `message.get('peer_id')` as tested by
`if peer_id and peer_id not in self.discovered_peers`. -/
def truthyId : Option String → Option String
  | none => none
  | some s => if s = "" then none else some s

/-- Model of one iteration of `PeerDiscovery._listen_for_peers` on a
received datagram, with the src/main.py callback inlined: discard own
announcements, discard other rendezvous tags, and register an unseen
truthy peer id — adding it to `discovered_peers` and invoking
`on_peer_found`, which runs `connect_to_peer` (directory insert plus
handshake send, whose outcome is the oracle `handshakeOk`). -/
def processDatagram (cfg : DiscConfig) (s : DiscState) (sender_ip : String)
    (d : Datagram) (handshakeOk : Addr → Bool) : DiscState :=
  if d.peer_id = some cfg.self_id then s
  else if d.rendezvous ≠ some cfg.rendezvous then s
  else
    match truthyId d.peer_id with
    | none => s
    | some pid =>
      if pid ∈ s.discovered then s
      else
        let discovered' := s.discovered ++ [pid]
        let res := connect_to_peer s.host sender_ip d.p2p_port pid handshakeOk
        { discovered := discovered', host := res.1,
          callbackTrace := s.callbackTrace ++ [(pid, sender_ip, d.p2p_port)] }

/-- Processing a whole sequence of received datagrams
(`(sender_ip, datagram)` pairs) in arrival order. -/
def processDatagrams (cfg : DiscConfig) (handshakeOk : Addr → Bool)
    (s : DiscState) (ds : List (String × Datagram)) : DiscState :=
  ds.foldl (fun st p => processDatagram cfg st p.1 p.2 handshakeOk) s

/-- Number of `on_peer_found` invocations recorded for a peer id. -/
def countCallbacks (t : List (String × String × Option Nat)) (pid : String) : Nat :=
  (t.filter (fun e => e.1 = pid)).length

/-- Invariant of the discovery listener used to show the callback fires
at most once per peer id: the trace holds at most one invocation for
`pid`, and none at all while `pid` is still unseen. -/
def atMostOnceInv (s : DiscState) (pid : String) : Prop :=
  countCallbacks s.callbackTrace pid ≤ 1
  ∧ (pid ∉ s.discovered → countCallbacks s.callbackTrace pid = 0)

/-! ## Dictionary lemmas -/

theorem dictGet_dictSet_same {α β : Type} [DecidableEq α] (d : Dict α β) (k : α) (v : β) :
    dictGet (dictSet d k v) k = some v := by
  induction d with
  | nil => simp [dictSet, dictGet]
  | cons hd tl ih =>
    obtain ⟨k', v'⟩ := hd
    by_cases h : k' = k <;> simp [dictSet, dictGet, h, ih]

theorem dictGet_dictSet_other {α β : Type} [DecidableEq α] (d : Dict α β) (k j : α) (v : β)
    (hne : k ≠ j) : dictGet (dictSet d k v) j = dictGet d j := by
  induction d with
  | nil => simp [dictSet, dictGet, hne]
  | cons hd tl ih =>
    obtain ⟨k', v'⟩ := hd
    by_cases h : k' = k
    · subst h
      simp [dictSet, dictGet, hne]
    · simp [dictSet, dictGet, h, ih]

theorem dictGet_append_right {α β : Type} [DecidableEq α] (d₁ d₂ : Dict α β) (k : α)
    (h : dictGet d₁ k = none) : dictGet (d₁ ++ d₂) k = dictGet d₂ k := by
  induction d₁ with
  | nil => simp
  | cons hd tl ih =>
    obtain ⟨k', v'⟩ := hd
    by_cases he : k' = k
    · simp [dictGet, he] at h
    · rw [List.cons_append]
      simp only [dictGet, he, if_false] at h ⊢
      exact ih h

theorem setdefaultAppend_get_same {μ : Type} (d : Dict String (List μ)) (ip : String) (m : μ) :
    dictGet (setdefaultAppend d ip m) ip = some ((dictGet d ip).getD [] ++ [m]) := by
  unfold setdefaultAppend
  cases h : dictGet d ip with
  | some q => simp [h, dictGet_dictSet_same]
  | none => simp [h, dictGet_append_right d [(ip, [m])] ip h, dictGet]

theorem flush_get_same {μ : Type} (s : SFState μ) (ip : String) (port : Nat)
    (send_func : String → Nat → μ → Bool) :
    dictGet (flush_buffer s ip port send_func).buffer ip
      = some ((flush_attempts s ip).filter (fun m => !(send_func ip port m))) :=
  dictGet_dictSet_same s.buffer ip _

theorem flush_get_other {μ : Type} (s : SFState μ) (ip : String) (port : Nat)
    (send_func : String → Nat → μ → Bool) (k : String) (hk : k ≠ ip) :
    dictGet (flush_buffer s ip port send_func).buffer k = dictGet s.buffer k :=
  dictGet_dictSet_other s.buffer ip k _ (fun he => hk he.symm)

/-! ## Counting lemmas -/

theorem countFoldl {α : Type} (p : α → Bool) (l : List α) (acc : Nat) :
    l.foldl (fun a x => if p x then a + 1 else a) acc = acc + (l.filter p).length := by
  induction l generalizing acc with
  | nil => simp
  | cons hd tl ih =>
    simp only [List.foldl_cons, List.filter_cons]
    by_cases h : p hd
    · simp only [h, if_true, ih, List.length_cons]
      omega
    · simp [h, ih]

/-- The success count `broadcast_message` returns is the number of
directory entries whose send succeeded. -/
theorem broadcast_success_count (h : HostState) (m : PyMsg) (sendOk : String → Addr → Bool) :
    (broadcast_message h m sendOk).2.2.1
      = (h.peers.filter (fun p => sendOk p.1 p.2)).length := by
  simpa using countFoldl (fun p : String × Addr => sendOk p.1 p.2) h.peers 0

/-! ## Chat-room lemmas -/

theorem sameTuple_self (d : ChatMessage) : sameTuple d d = true := by
  simp [sameTuple]

theorem countTuple_append_self (l : List ChatMessage) (d : ChatMessage) :
    countTuple (l ++ [d]) d = countTuple l d + 1 := by
  simp [countTuple, List.filter_append, sameTuple_self]

theorem countTuple_eq_zero_of_any_false (l : List ChatMessage) (d : ChatMessage)
    (h : l.any (sameTuple d) = false) : countTuple l d = 0 := by
  simp only [countTuple, List.length_eq_zero]
  rw [List.filter_eq_nil_iff]
  intro a ha
  have := List.any_eq_false.mp h a ha
  simpa using this

theorem countTuple_pos_of_any_true (l : List ChatMessage) (d : ChatMessage)
    (h : l.any (sameTuple d) = true) : 0 < countTuple l d := by
  obtain ⟨x, hx, hpx⟩ := List.any_eq_true.mp h
  have hmem : x ∈ l.filter (sameTuple d) := List.mem_filter.mpr ⟨hx, hpx⟩
  exact List.length_pos.mpr (fun he => by simp [he] at hmem)

/-- Reduction of the inbound handler once the envelope is a
`chat_message` for this room, carries data, and is not a self-echo. -/
theorem handleIncoming_eq (r : RoomState) (m : PyMsg) (d : ChatMessage)
    (hm : m.type = some "chat_message") (hr : m.room = some r.room_name)
    (hdm : m.data = some d) (hs : d.SenderID ≠ r.peer_id) (l : List ChatMessage) :
    handleIncoming { r with messages := l } m
      = if l.any (sameTuple d) then { r with messages := l }
        else { r with messages := l ++ [d] } := by
  simp [handleIncoming, hm, hr, hdm, hs]

/-! ## Discovery lemmas -/

theorem countCallbacks_append (t : List (String × String × Option Nat))
    (e : String × String × Option Nat) (pid : String) :
    countCallbacks (t ++ [e]) pid
      = countCallbacks t pid + (if e.1 = pid then 1 else 0) := by
  simp only [countCallbacks, List.filter_append, List.length_append]
  by_cases h : e.1 = pid <;> simp [h]

theorem processDatagram_inv (cfg : DiscConfig) (s : DiscState) (ip : String)
    (d : Datagram) (hs : Addr → Bool) (pid : String)
    (hinv : atMostOnceInv s pid) :
    atMostOnceInv (processDatagram cfg s ip d hs) pid := by
  unfold processDatagram
  split
  · exact hinv
  split
  · exact hinv
  cases htid : truthyId d.peer_id with
  | none => exact hinv
  | some pid' =>
    by_cases hmem : pid' ∈ s.discovered
    · simp only [if_pos hmem]
      exact hinv
    · simp only [if_neg hmem]
      constructor
      · show countCallbacks (s.callbackTrace ++ [(pid', ip, d.p2p_port)]) pid ≤ 1
        rw [countCallbacks_append]
        by_cases hpp : pid' = pid
        · subst hpp
          have h0 : countCallbacks s.callbackTrace pid' = 0 := hinv.2 hmem
          simp [h0]
        · simpa [hpp] using hinv.1
      · intro hnot
        show countCallbacks (s.callbackTrace ++ [(pid', ip, d.p2p_port)]) pid = 0
        have hno : pid ∉ s.discovered ∧ pid ≠ pid' := by
          constructor
          · intro hc
            exact hnot (List.mem_append.mpr (Or.inl hc))
          · intro hc
            exact hnot (List.mem_append.mpr (Or.inr (by simp [hc])))
        rw [countCallbacks_append]
        have hz := hinv.2 hno.1
        have hne : ¬ pid' = pid := fun he => hno.2 he.symm
        simp [hz, hne]

theorem processDatagrams_inv (cfg : DiscConfig) (hs : Addr → Bool)
    (ds : List (String × Datagram)) :
    ∀ (s : DiscState) (pid : String), atMostOnceInv s pid →
      atMostOnceInv (processDatagrams cfg hs s ds) pid := by
  induction ds with
  | nil => intro s pid h; exact h
  | cons hd tl ih =>
    intro s pid h
    simp only [processDatagrams, List.foldl_cons]
    exact ih _ pid (processDatagram_inv cfg s hd.1 hd.2 hs pid h)

/-! ## Claims -/

/-- C1: acknowledgment completion is claimed to require all targeted
peers — but in the code, registering a `PendingAck` for targets
`A`, `B` and then handling a single ACK for the message id discards the
whole registry entry (`handle_ack` does not even receive the
acknowledging peer), so `wait_for_acks` reports the message delivered
after the ACK from `A` alone. -/
theorem c1_single_ack_marks_delivered :
    handle_ack (register_ack [] "m1" ["A", "B"]) "m1" = []
    ∧ wait_for_acks (handle_ack (register_ack [] "m1" ["A", "B"]) "m1") "m1" 3 = true := by
  constructor
  · rfl
  · rfl

/-- C2 counterexample: a failed `_send_to_peer` does mutate the Peer
Directory — with the directory mapping peer `A` to an address and the
send failing, the directory afterwards differs from the directory
before (the entry for `A` is evicted). -/
theorem c2_counterexample :
    ¬ ((sendToPeer (HostState.mk "me" [("A", ("10.0.0.1", some 9001))]) "A"
          (fun _ => false)).peers
        = (HostState.mk "me" [("A", ("10.0.0.1", some 9001))]).peers) := by
  decide

/-- C2 (amended): failed sends inside `broadcast_message` leave the
Peer Directory unchanged, `send_message` of the pythonEngine transport
only buffers the message into the store-and-forward state on failure,
and a successful `_send_to_peer` leaves the directory unchanged — but a
failed `_send_to_peer` removes the failing peer's entry from the
directory. -/
theorem c2_failed_send_directory {μ : Type} (h : HostState) (pid : String) (addr : Addr)
    (sendOk : Addr → Bool) (m : PyMsg) (bf : String → Addr → Bool)
    (sf : SFState μ) (ip : String) (port : Nat) (msg : μ) :
    (broadcast_message h m bf).1 = h
    ∧ (send_message sf ip port msg false).1 = buffer_message sf ip msg
    ∧ (dictGet h.peers pid = some addr → sendOk addr = true → sendToPeer h pid sendOk = h)
    ∧ (dictGet h.peers pid = some addr → sendOk addr = false →
        (sendToPeer h pid sendOk).peers = dictPop h.peers pid) := by
  refine ⟨rfl, rfl, ?_, ?_⟩
  · intro hg hok
    simp [sendToPeer, hg, hok]
  · intro hg hok
    simp [sendToPeer, hg, hok]

/-- C2 witness: the amended statement at a concrete directory — a
successful send keeps the entry, a failed send pops it. -/
theorem c2_witness :
    sendToPeer (HostState.mk "me" [("A", ("10.0.0.1", some 9001))]) "A" (fun _ => true)
      = HostState.mk "me" [("A", ("10.0.0.1", some 9001))]
    ∧ (sendToPeer (HostState.mk "me" [("A", ("10.0.0.1", some 9001))]) "A"
        (fun _ => false)).peers
      = dictPop [("A", ("10.0.0.1", some 9001))] "A" :=
  ⟨(c2_failed_send_directory (μ := Nat) (HostState.mk "me" [("A", ("10.0.0.1", some 9001))])
      "A" ("10.0.0.1", some 9001) (fun _ => true) (PyMsg.mk none none none none)
      (fun _ _ => true) (SFState.mk [] none) "i" 1 0).2.2.1 (by decide) rfl,
   (c2_failed_send_directory (μ := Nat) (HostState.mk "me" [("A", ("10.0.0.1", some 9001))])
      "A" ("10.0.0.1", some 9001) (fun _ => false) (PyMsg.mk none none none none)
      (fun _ _ => true) (SFState.mk [] none) "i" 1 0).2.2.2 (by decide) rfl⟩

/-- C3: `flush_buffer` attempts redelivery of exactly the queued
envelopes for the address in their enqueue order (`flush_attempts`),
afterwards the queue for that address holds exactly the envelopes whose
send attempt failed in their original relative order, every other
address's queue is untouched, and the buffer is persisted again. -/
theorem c3_flush_requeues_failures {μ : Type} (s : SFState μ) (ip : String) (port : Nat)
    (send_func : String → Nat → μ → Bool) :
    dictGet (flush_buffer s ip port send_func).buffer ip
      = some ((flush_attempts s ip).filter (fun m => !(send_func ip port m)))
    ∧ (flush_buffer s ip port send_func).disk
      = some (flush_buffer s ip port send_func).buffer
    ∧ ∀ k, k ≠ ip →
        dictGet (flush_buffer s ip port send_func).buffer k = dictGet s.buffer k := by
  refine ⟨flush_get_same s ip port send_func, rfl, ?_⟩
  intro k hk
  exact flush_get_other s ip port send_func k hk

/-- C3 witness: flushing a concrete queue `[1, 2, 3]` where only the
send of `2` fails leaves exactly `[2]` queued, and an unrelated
address's (absent) queue stays absent. -/
theorem c3_witness :
    dictGet (flush_buffer (SFState.mk [("p", [1, 2, 3])] none) "p" 1
        (fun _ _ m => !(m == 2))).buffer "p" = some [2]
    ∧ dictGet (flush_buffer (SFState.mk [("p", [1, 2, 3])] none) "p" 1
        (fun _ _ m => !(m == 2))).buffer "q" = none := by
  have H := c3_flush_requeues_failures (SFState.mk [("p", [1, 2, 3])] none) "p" 1
    (fun _ _ m => !(m == 2))
  exact ⟨H.1.trans (by decide), (H.2.2 "q" (by decide)).trans (by decide)⟩

/-- C4: `buffer_message` persists the buffer synchronously (the disk
copy equals the in-memory buffer), reloading the persisted buffer after
a simulated restart yields the same state including the message just
queued for the peer, and a subsequent flush in which every send
succeeds leaves that peer's queue empty. -/
theorem c4_store_forward_durability {μ : Type} (s : SFState μ) (ip : String) (port : Nat)
    (m : μ) (send_func : String → Nat → μ → Bool)
    (hf : ∀ a b x, send_func a b x = true) :
    (buffer_message s ip m).disk = some (buffer_message s ip m).buffer
    ∧ load_buffer (buffer_message s ip m) = buffer_message s ip m
    ∧ dictGet (load_buffer (buffer_message s ip m)).buffer ip
        = some ((dictGet s.buffer ip).getD [] ++ [m])
    ∧ dictGet (flush_buffer (load_buffer (buffer_message s ip m)) ip port send_func).buffer ip
        = some [] := by
  refine ⟨rfl, rfl, ?_, ?_⟩
  · exact setdefaultAppend_get_same s.buffer ip m
  · rw [flush_get_same]
    congr 1
    exact List.filter_eq_nil_iff.mpr (fun a _ => by simp [hf])

/-- C4 witness: buffering `7` for `"p"` into an empty state, reloading
from disk, and flushing with an always-succeeding send leaves the
persisted state holding `7` after the reload and an empty queue after
the flush. -/
theorem c4_witness :
    (buffer_message (SFState.mk ([] : Dict String (List Nat)) none) "p" 7).disk
      = some (buffer_message (SFState.mk ([] : Dict String (List Nat)) none) "p" 7).buffer
    ∧ dictGet (load_buffer
        (buffer_message (SFState.mk ([] : Dict String (List Nat)) none) "p" 7)).buffer "p"
      = some [7]
    ∧ dictGet (flush_buffer
        (load_buffer (buffer_message (SFState.mk ([] : Dict String (List Nat)) none) "p" 7))
        "p" 1 (fun _ _ _ => true)).buffer "p"
      = some [] := by
  have H := c4_store_forward_durability (SFState.mk ([] : Dict String (List Nat)) none)
    "p" 1 7 (fun _ _ _ => true) (fun _ _ _ => rfl)
  exact ⟨H.1, H.2.2.1.trans (by decide), H.2.2.2⟩

/-- C5: `broadcast_message` returns exactly the number of successful
sends over the snapshot of the Peer Directory (and leaves the host
state unchanged); in particular, broadcasting to a directory of three
peers where exactly the send to `B` fails returns 2. -/
theorem c5_broadcast_count :
    (∀ (h : HostState) (m : PyMsg) (sendOk : String → Addr → Bool),
        (broadcast_message h m sendOk).2.2.1
          = (h.peers.filter (fun p => sendOk p.1 p.2)).length
        ∧ (broadcast_message h m sendOk).1 = h)
    ∧ (broadcast_message
        (HostState.mk "me"
          [("A", ("10.0.0.1", some 9001)), ("B", ("10.0.0.2", some 9002)),
           ("C", ("10.0.0.3", some 9003))])
        (PyMsg.mk none none none none)
        (fun pid _ => !(pid == "B"))).2.2.1 = 2 := by
  constructor
  · intro h m sendOk
    exact ⟨broadcast_success_count h m sendOk, rfl⟩
  · rfl

/-- C6: delivering the same `(SenderID, Message, Timestamp)` tuple twice
to a room's inbound handler — a `chat_message` for this room, from a
sender other than the local peer, into a log holding at most one entry
with that tuple (the invariant every reachable log satisfies) — leaves
exactly one entry with the tuple in the log, and the second delivery
leaves the log unchanged. -/
theorem c6_duplicate_suppression (r : RoomState) (m : PyMsg) (d : ChatMessage)
    (hm : m.type = some "chat_message") (hr : m.room = some r.room_name)
    (hdm : m.data = some d) (hs : d.SenderID ≠ r.peer_id)
    (h0 : countTuple r.messages d ≤ 1) :
    handleIncoming (handleIncoming r m) m = handleIncoming r m
    ∧ countTuple (handleIncoming (handleIncoming r m) m).messages d = 1 := by
  have key : ∀ (l : List ChatMessage),
      handleIncoming { r with messages := l } m
        = if l.any (sameTuple d) then ({ r with messages := l } : RoomState)
          else { r with messages := l ++ [d] } :=
    handleIncoming_eq r m d hm hr hdm hs
  have k1 : handleIncoming r m
      = if r.messages.any (sameTuple d) then ({ r with messages := r.messages } : RoomState)
        else { r with messages := r.messages ++ [d] } := key r.messages
  by_cases hany : r.messages.any (sameTuple d)
  · have hfix : handleIncoming r m = r := by
      rw [k1, if_pos hany]
    rw [hfix, hfix]
    exact ⟨rfl, Nat.le_antisymm h0 (countTuple_pos_of_any_true r.messages d hany)⟩
  · have h1 : handleIncoming r m = { r with messages := r.messages ++ [d] } := by
      rw [k1, if_neg hany]
    have hany2 : (r.messages ++ [d]).any (sameTuple d) = true := by
      simp [List.any_append, sameTuple_self]
    have h2 : handleIncoming ({ r with messages := r.messages ++ [d] } : RoomState) m
        = { r with messages := r.messages ++ [d] } := by
      rw [key (r.messages ++ [d]), if_pos hany2]
    rw [h1, h2]
    refine ⟨rfl, ?_⟩
    rw [countTuple_append_self, countTuple_eq_zero_of_any_false r.messages d
      (Bool.eq_false_iff.mpr hany)]

/-- C6 witness: a concrete foreign chat message delivered twice into an
empty log yields exactly one matching entry and an unchanged second
delivery. -/
theorem c6_witness :
    handleIncoming
        (handleIncoming (RoomState.mk "relief" "nick" "me" [])
          (PyMsg.mk (some "chat_message") (some "relief")
            (some (ChatMessage.mk "hi" "A" "alice" "t1")) none))
        (PyMsg.mk (some "chat_message") (some "relief")
          (some (ChatMessage.mk "hi" "A" "alice" "t1")) none)
      = handleIncoming (RoomState.mk "relief" "nick" "me" [])
          (PyMsg.mk (some "chat_message") (some "relief")
            (some (ChatMessage.mk "hi" "A" "alice" "t1")) none)
    ∧ countTuple
        (handleIncoming
          (handleIncoming (RoomState.mk "relief" "nick" "me" [])
            (PyMsg.mk (some "chat_message") (some "relief")
              (some (ChatMessage.mk "hi" "A" "alice" "t1")) none))
          (PyMsg.mk (some "chat_message") (some "relief")
            (some (ChatMessage.mk "hi" "A" "alice" "t1")) none)).messages
        (ChatMessage.mk "hi" "A" "alice" "t1") = 1 :=
  c6_duplicate_suppression (RoomState.mk "relief" "nick" "me" [])
    (PyMsg.mk (some "chat_message") (some "relief")
      (some (ChatMessage.mk "hi" "A" "alice" "t1")) none)
    (ChatMessage.mk "hi" "A" "alice" "t1") rfl rfl rfl (by decide) (by decide)

/-- C7: an inbound envelope whose chat payload carries the local peer's
own id as sender is never appended — the handler leaves the room state
(and hence the log) unchanged. -/
theorem c7_self_echo_rejected (r : RoomState) (m : PyMsg) (d : ChatMessage)
    (hdm : m.data = some d) (hs : d.SenderID = r.peer_id) :
    handleIncoming r m = r := by
  simp [handleIncoming, hdm, hs]

/-- C7 witness: a concrete self-echoed chat message leaves a concrete
room state unchanged. -/
theorem c7_witness :
    handleIncoming
        (RoomState.mk "relief" "nick" "me" [ChatMessage.mk "x" "A" "alice" "t0"])
        (PyMsg.mk (some "chat_message") (some "relief")
          (some (ChatMessage.mk "hello" "me" "nick" "t1")) none)
      = RoomState.mk "relief" "nick" "me" [ChatMessage.mk "x" "A" "alice" "t0"] :=
  c7_self_echo_rejected
    (RoomState.mk "relief" "nick" "me" [ChatMessage.mk "x" "A" "alice" "t0"])
    (PyMsg.mk (some "chat_message") (some "relief")
      (some (ChatMessage.mk "hello" "me" "nick" "t1")) none)
    (ChatMessage.mk "hello" "me" "nick" "t1") rfl rfl

/-- C8 counterexample: an unseen peer `A` announcing with the matching
rendezvous is NOT left registered at `(sender_ip, announced_tcp_port)`
when the handshake send that `connect_to_peer` fires immediately after
the directory insert fails — `_send_to_peer`'s failure branch evicts the
just-inserted entry, so the directory has no entry for `A` after the
datagram is processed. -/
theorem c8_counterexample :
    dictGet (processDatagram (DiscConfig.mk "me" "relief")
        (DiscState.mk [] (HostState.mk "me" []) [])
        "10.0.0.2" (Datagram.mk (some "A") (some 9001) (some "relief"))
        (fun _ => false)).host.peers "A" = none := by
  decide

/-- C8 (amended): the listener discards datagrams whose peer id equals
the local peer id or whose rendezvous differs from the configured tag;
re-announcements of an already-seen peer are complete no-ops (stored
address not updated, no callback); a non-empty unseen peer id is marked
seen and `on_peer_found` is invoked, and the callback's
`connect_to_peer` leaves the peer registered at
`(sender_ip, announced_tcp_port)` provided the immediate handshake send
succeeds (a failed handshake evicts the entry again); and across any
sequence of datagrams the callback fires at most once per peer id. -/
theorem c8_discovery_registration (cfg : DiscConfig) (s : DiscState) (ip : String)
    (d : Datagram) (hs : Addr → Bool) :
    (d.peer_id = some cfg.self_id → processDatagram cfg s ip d hs = s)
    ∧ (d.rendezvous ≠ some cfg.rendezvous → processDatagram cfg s ip d hs = s)
    ∧ (∀ pid, truthyId d.peer_id = some pid → pid ∈ s.discovered →
        processDatagram cfg s ip d hs = s)
    ∧ (∀ pid, d.peer_id = some pid → pid ≠ "" → pid ≠ cfg.self_id →
        d.rendezvous = some cfg.rendezvous → pid ∉ s.discovered →
        hs (ip, d.p2p_port) = true →
        dictGet (processDatagram cfg s ip d hs).host.peers pid = some (ip, d.p2p_port)
        ∧ (processDatagram cfg s ip d hs).callbackTrace
            = s.callbackTrace ++ [(pid, ip, d.p2p_port)]
        ∧ (processDatagram cfg s ip d hs).discovered = s.discovered ++ [pid])
    ∧ (∀ (ds : List (String × Datagram)) (pid : String),
        pid ∉ s.discovered → countCallbacks s.callbackTrace pid = 0 →
        countCallbacks (processDatagrams cfg hs s ds).callbackTrace pid ≤ 1) := by
  refine ⟨?_, ?_, ?_, ?_, ?_⟩
  · intro h1
    simp [processDatagram, h1]
  · intro h2
    by_cases h1 : d.peer_id = some cfg.self_id
    · simp [processDatagram, h1]
    · simp [processDatagram, h1, h2]
  · intro pid htid hmem
    by_cases h1 : d.peer_id = some cfg.self_id
    · simp [processDatagram, h1]
    · by_cases h2 : d.rendezvous ≠ some cfg.rendezvous
      · simp [processDatagram, h1, h2]
      · simp [processDatagram, h1, h2, htid, hmem]
  · intro pid hp hne hself hrdv hnew hok
    have hred : processDatagram cfg s ip d hs
        = DiscState.mk (s.discovered ++ [pid])
            (connect_to_peer s.host ip d.p2p_port pid hs).1
            (s.callbackTrace ++ [(pid, ip, d.p2p_port)]) := by
      unfold processDatagram
      rw [hp]
      simp [truthyId, hne, hself, hrdv, hnew]
    have hconn : (connect_to_peer s.host ip d.p2p_port pid hs).1
        = { s.host with peers := dictSet s.host.peers pid (ip, d.p2p_port) } := by
      simp [connect_to_peer, sendToPeer, dictGet_dictSet_same, hok]
    refine ⟨?_, ?_, ?_⟩
    · rw [hred]
      show dictGet (connect_to_peer s.host ip d.p2p_port pid hs).1.peers pid
        = some (ip, d.p2p_port)
      rw [hconn]
      exact dictGet_dictSet_same s.host.peers pid (ip, d.p2p_port)
    · rw [hred]
    · rw [hred]
  · intro ds pid hnm hc0
    exact (processDatagrams_inv cfg hs ds s pid ⟨by omega, fun _ => hc0⟩).1

/-- C8 witness: a fresh node hears peer `A` announce twice on the
matching rendezvous with a succeeding handshake — `A` ends up registered
at the announced address and the callback has fired at most once. -/
theorem c8_witness :
    dictGet (processDatagram (DiscConfig.mk "me" "relief")
        (DiscState.mk [] (HostState.mk "me" []) [])
        "10.0.0.2" (Datagram.mk (some "A") (some 9001) (some "relief"))
        (fun _ => true)).host.peers "A" = some ("10.0.0.2", some 9001)
    ∧ countCallbacks (processDatagrams (DiscConfig.mk "me" "relief") (fun _ => true)
        (DiscState.mk [] (HostState.mk "me" []) [])
        [("10.0.0.2", Datagram.mk (some "A") (some 9001) (some "relief")),
         ("10.0.0.2", Datagram.mk (some "A") (some 9001) (some "relief"))]).callbackTrace
        "A" ≤ 1 := by
  have H := c8_discovery_registration (DiscConfig.mk "me" "relief")
    (DiscState.mk [] (HostState.mk "me" []) [])
    "10.0.0.2" (Datagram.mk (some "A") (some 9001) (some "relief")) (fun _ => true)
  exact ⟨(H.2.2.2.1 "A" rfl (by decide) (by decide) rfl (by decide) rfl).1,
    H.2.2.2.2 [("10.0.0.2", Datagram.mk (some "A") (some 9001) (some "relief")),
      ("10.0.0.2", Datagram.mk (some "A") (some 9001) (some "relief"))] "A"
      (by decide) rfl⟩

/-- C9: `publish` appends the constructed `ChatMessage` to the local
log unconditionally — in particular the message stays in the log when
zero sends succeed — and returns `true` exactly when at least one peer
in the directory snapshot received the broadcast. -/
theorem c9_publish_append_and_result (h : HostState) (r : RoomState) (text ts : String)
    (sendOk : String → Addr → Bool) :
    (publish h r text ts sendOk).2.1.messages
      = r.messages ++ [ChatMessage.mk text r.peer_id r.nickname ts]
    ∧ ((publish h r text ts sendOk).2.2 = true
        ↔ 0 < (h.peers.filter (fun p => sendOk p.1 p.2)).length) := by
  refine ⟨rfl, ?_⟩
  show decide (0 < (broadcast_message h _ sendOk).2.2.1) = true ↔ _
  rw [broadcast_success_count]
  exact decide_eq_true_iff

/-- C9 witness: publishing into a one-peer directory where the send
succeeds appends the message to the empty log and returns `true`;
publishing where it fails still appends but returns `false`. -/
theorem c9_witness :
    (publish (HostState.mk "h" [("A", ("10.0.0.1", some 9001))])
        (RoomState.mk "relief" "nick" "me" []) "help" "t1"
        (fun _ _ => true)).2.1.messages
      = [] ++ [ChatMessage.mk "help" "me" "nick" "t1"]
    ∧ (publish (HostState.mk "h" [("A", ("10.0.0.1", some 9001))])
        (RoomState.mk "relief" "nick" "me" []) "help" "t1"
        (fun _ _ => true)).2.2 = true
    ∧ (publish (HostState.mk "h" [("A", ("10.0.0.1", some 9001))])
        (RoomState.mk "relief" "nick" "me" []) "help" "t1"
        (fun _ _ => false)).2.1.messages
      = [] ++ [ChatMessage.mk "help" "me" "nick" "t1"]
    ∧ (publish (HostState.mk "h" [("A", ("10.0.0.1", some 9001))])
        (RoomState.mk "relief" "nick" "me" []) "help" "t1"
        (fun _ _ => false)).2.2 = false := by
  have H1 := c9_publish_append_and_result (HostState.mk "h" [("A", ("10.0.0.1", some 9001))])
    (RoomState.mk "relief" "nick" "me" []) "help" "t1" (fun _ _ => true)
  have H2 := c9_publish_append_and_result (HostState.mk "h" [("A", ("10.0.0.1", some 9001))])
    (RoomState.mk "relief" "nick" "me" []) "help" "t1" (fun _ _ => false)
  refine ⟨H1.1, H1.2.mpr (by decide), H2.1, ?_⟩
  have := H2.2
  rcases hb : (publish (HostState.mk "h" [("A", ("10.0.0.1", some 9001))])
      (RoomState.mk "relief" "nick" "me" []) "help" "t1" (fun _ _ => false)).2.2
  · rfl
  · exact absurd ((hb ▸ this).mp rfl) (by decide)

/-- C10: `broadcast_message` overwrites the caller's dictionary entry
under `peer_id` with the broadcasting host's own peer id — whatever
value was stored there before — leaves every other field of the
caller's dictionary intact, the mutated dictionary is what the caller
observes after the call, and every wire payload attempted carries the
sender's peer id. -/
theorem c10_broadcast_mutates_message (h : HostState) (m : PyMsg)
    (sendOk : String → Addr → Bool) :
    (broadcast_message h m sendOk).2.1 = { m with peer_id := some h.peer_id }
    ∧ (broadcast_message h m sendOk).2.1.peer_id = some h.peer_id
    ∧ (∀ e ∈ (broadcast_message h m sendOk).2.2.2, e.2.peer_id = some h.peer_id) := by
  refine ⟨rfl, rfl, ?_⟩
  intro e he
  simp only [broadcast_message, List.mem_map] at he
  obtain ⟨p, _, hpe⟩ := he
  rw [← hpe]

/-- C10 witness: with a caller-supplied `peer_id` of `"other"` already
in the dictionary, a concrete broadcast rewrites it to the host's own
id `"me"`, and the payload attempted for peer `A` carries `"me"`. -/
theorem c10_witness :
    (broadcast_message (HostState.mk "me" [("A", ("10.0.0.1", some 9001))])
        (PyMsg.mk none none none (some "other")) (fun _ _ => true)).2.1.peer_id
      = some "me"
    ∧ (PyMsg.mk none none none (some "me")).peer_id = some "me" :=
  ⟨(c10_broadcast_mutates_message (HostState.mk "me" [("A", ("10.0.0.1", some 9001))])
      (PyMsg.mk none none none (some "other")) (fun _ _ => true)).2.1,
   (c10_broadcast_mutates_message (HostState.mk "me" [("A", ("10.0.0.1", some 9001))])
      (PyMsg.mk none none none (some "other")) (fun _ _ => true)).2.2
      ("A", PyMsg.mk none none none (some "me")) (by decide)⟩

end DisasterConnect
